import Mathlib

/-!
Verification of the `circlecli` API client (`src/circle.py`).

The module `circle.py` defines a class `CircleAPI` wrapping the CircleCI
REST API: it stores an API token, builds request URLs carrying the token as
a query parameter, issues GET/POST/DELETE requests through the `requests`
library, and reshapes the decoded JSON responses either into a raw
pretty-printed JSON string (verbose mode) or into curated ordered records.

This file is a shallow embedding of that module.  JSON/Python values are
modelled by the inductive type `Json`; Python dicts are association lists
with `dict.update` semantics (`dictSet` / `dictUpdate`); the HTTP transport
(`requests`) is a parameter `HttpRequest → HttpResponse`, and every
operation additionally returns the list of requests it issued, so that
"performs no network I/O" is expressible.  Exceptions are modelled with
`Except`.
-/

/-- JSON values (also used for the Python values manipulated by the code:
dicts are `obj` with insertion order, lists are `arr`, `None` is `null`). -/
inductive Json where
  | null : Json
  | bool : Bool → Json
  | num : Int → Json
  | str : String → Json
  | arr : List Json → Json
  | obj : List (String × Json) → Json

/-- Python truthiness of a value (`if x:`): `None`, `False`, `0`, `""`,
`[]` and an empty dict are falsy, everything else is truthy. -/
def truthy : Json → Bool
  | Json.null => false
  | Json.bool b => b
  | Json.num n => n ≠ 0
  | Json.str s => s ≠ ""
  | Json.arr xs => !xs.isEmpty
  | Json.obj fs => !fs.isEmpty

mutual

/-- Python `repr` of a value (used by `str` on containers).  Faithful for
the scalar cases; container cases follow Python's `repr` layout. -/
def pyRepr : Json → String
  | Json.null => "None"
  | Json.bool true => "True"
  | Json.bool false => "False"
  | Json.num n => toString n
  | Json.str s => "\x27" ++ s ++ "\x27"
  | Json.arr xs => "[" ++ pyReprArr xs ++ "]"
  | Json.obj fs => "\x7b" ++ pyReprObj fs ++ "\x7d"

/-- Comma-separated `repr`s of the elements of a list. -/
def pyReprArr : List Json → String
  | [] => ""
  | [x] => pyRepr x
  | x :: y :: rest => pyRepr x ++ ", " ++ pyReprArr (y :: rest)

/-- Comma-separated `key: value` `repr`s of the items of a dict. -/
def pyReprObj : List (String × Json) → String
  | [] => ""
  | [(k, v)] => "\x27" ++ k ++ "\x27: " ++ pyRepr v
  | (k, v) :: f :: rest => "\x27" ++ k ++ "\x27: " ++ pyRepr v ++ ", " ++ pyReprObj (f :: rest)

end

/-- Python `str()` of a value, as used by `'...'.format(...)`:
the identity on strings, `repr` otherwise. -/
def pyStr : Json → String
  | Json.str s => s
  | j => pyRepr j

/-- First-match association-list lookup (Python dict lookup; dict keys are
unique, so first match is the match). -/
def alookup (k : String) : List (String × β) → Option β
  | [] => none
  | (k', v) :: rest => if k' = k then some v else alookup k rest

/-- `d[k] = v` on an association list: replace the value at `k` in place if
the key is present, append the binding otherwise. -/
def dictSet (d : List (String × β)) (k : String) (v : β) : List (String × β) :=
  match d with
  | [] => [(k, v)]
  | (k', v') :: rest => if k' = k then (k', v) :: rest else (k', v') :: dictSet rest k v

/-- Python `d.update(ps)`: set each binding of `ps` in `d`, in order. -/
def dictUpdate (d : List (String × β)) : List (String × β) → List (String × β)
  | [] => d
  | (k, v) :: rest => dictUpdate (dictSet d k v) rest

/-- Uppercase hexadecimal digit, as used by percent-encoding. -/
def hexDigitU (n : Nat) : Char :=
  if n < 10 then Char.ofNat (48 + n) else Char.ofNat (55 + n)

/-- UTF-8 byte sequence of a code point (needed only by `quotePlus` on
non-ASCII characters). -/
def utf8Bytes (n : Nat) : List Nat :=
  if n < 128 then [n]
  else if n < 2048 then [192 + n / 64, 128 + n % 64]
  else if n < 65536 then [224 + n / 4096, 128 + n / 64 % 64, 128 + n % 64]
  else [240 + n / 262144, 128 + n / 4096 % 64, 128 + n / 64 % 64, 128 + n % 64]

/-- Percent-encode one byte: `%XX` with uppercase hex. -/
def percentByte (b : Nat) : String :=
  "%" ++ String.singleton (hexDigitU (b / 16)) ++ String.singleton (hexDigitU (b % 16))

/-- Python 2 `urllib.quote_plus` on one character: letters, digits and
`_`, `.`, `-` are kept, a space becomes `+`, anything else is
percent-encoded byte by byte. -/
def quotePlusChar (c : Char) : String :=
  if c.isAlphanum ∨ c = '_' ∨ c = '.' ∨ c = '-' then String.singleton c
  else if c = ' ' then "+"
  else String.join ((utf8Bytes c.toNat).map percentByte)

/-- Python 2 `urllib.quote_plus` on a string. -/
def quotePlus (s : String) : String :=
  String.join (s.toList.map quotePlusChar)

/-- Python 2 `urllib.urlencode` on the items of a dict:
`k1=v1&k2=v2&...` with `quote_plus` applied to keys and values. -/
def urlencode (ps : List (String × String)) : String :=
  String.intercalate "&" (ps.map fun kv => quotePlus kv.1 ++ "=" ++ quotePlus kv.2)

/-- Escape one character for a JSON string literal (`json.dumps`). -/
def jsonEscapeChar (c : Char) : String :=
  if c = '"' then "\\\""
  else if c = '\\' then "\\\\"
  else if c = '\n' then "\\n"
  else if c = '\t' then "\\t"
  else if c = '\r' then "\\r"
  else if c.toNat < 32 then
    "\\u00" ++ String.singleton (hexDigitU (c.toNat / 16)) ++ String.singleton (hexDigitU (c.toNat % 16))
  else String.singleton c

/-- A JSON string literal with quotes and escapes (`json.dumps` on a string). -/
def jsonQuote (s : String) : String :=
  "\"" ++ String.join (s.toList.map jsonEscapeChar) ++ "\""

/-- `n` spaces. -/
def spaces (n : Nat) : String :=
  String.mk (List.replicate n ' ')

mutual

/-- `json.dumps(v, indent=2)` at current indentation `ind`:
scalars on one line, containers opened on their own line with each item
indented two further spaces, exactly as Python's `json.dumps` renders. -/
def dumpVal (ind : Nat) : Json → String
  | Json.null => "null"
  | Json.bool true => "true"
  | Json.bool false => "false"
  | Json.num n => toString n
  | Json.str s => jsonQuote s
  | Json.arr [] => "[]"
  | Json.arr (x :: xs) => "[\n" ++ dumpArrItems (ind + 2) (x :: xs) ++ "\n" ++ spaces ind ++ "]"
  | Json.obj [] => "\x7b\x7d"
  | Json.obj (f :: fs) => "\x7b\n" ++ dumpObjItems (ind + 2) (f :: fs) ++ "\n" ++ spaces ind ++ "\x7d"

/-- The `,\n`-separated, indented items of a JSON array. -/
def dumpArrItems (ind : Nat) : List Json → String
  | [] => ""
  | [x] => spaces ind ++ dumpVal ind x
  | x :: y :: rest => spaces ind ++ dumpVal ind x ++ ",\n" ++ dumpArrItems ind (y :: rest)

/-- The `,\n`-separated, indented `key: value` items of a JSON object. -/
def dumpObjItems (ind : Nat) : List (String × Json) → String
  | [] => ""
  | [(k, v)] => spaces ind ++ jsonQuote k ++ ": " ++ dumpVal ind v
  | (k, v) :: f :: rest => spaces ind ++ jsonQuote k ++ ": " ++ dumpVal ind v ++ ",\n" ++ dumpObjItems ind (f :: rest)

end

/-- `json.dumps(v, indent=2)`, as called in the verbose branches. -/
def jsonDumps (j : Json) : String :=
  dumpVal 0 j

/-- Errors raised by the client: `exn` models a plain `Exception(msg)`
(the `status_code >= 400` case), `notImplementedError` a
`NotImplementedError(msg)`, `keyError` a `KeyError` from a missing dict
key, and `typeError` a `TypeError` from using a value at the wrong type. -/
inductive CircleError where
  | exn : String → CircleError
  | notImplementedError : String → CircleError
  | keyError : String → CircleError
  | typeError : String → CircleError

/-- `d[k]` on a Python value: a dict lookup, raising `KeyError` on a
missing key and `TypeError` when the value is not a dict. -/
def dictGet (j : Json) (k : String) : Except CircleError Json :=
  match j with
  | Json.obj fields =>
    match alookup k fields with
    | some v => Except.ok v
    | none => Except.error (CircleError.keyError k)
  | _ => Except.error (CircleError.typeError "not subscriptable")

/-- A value expected to be a string (e.g. by `dateutil.parser.parse`),
raising `TypeError` otherwise. -/
def asString : Json → Except CircleError String
  | Json.str s => Except.ok s
  | _ => Except.error (CircleError.typeError "expected a string")

/-- A value expected to be a list (e.g. to iterate it), raising
`TypeError` otherwise. -/
def asArr : Json → Except CircleError (List Json)
  | Json.arr xs => Except.ok xs
  | _ => Except.error (CircleError.typeError "not iterable")

/-- `', '.join(xs)` over a Python list whose elements must be strings. -/
def joinPy (sep : String) (xs : List Json) : Except CircleError String :=
  Except.map (String.intercalate sep) (xs.mapM asString)

/-- `d.keys()` of a dict, raising `TypeError` on a non-dict. -/
def objKeys : Json → Except CircleError (List String)
  | Json.obj fs => Except.ok (fs.map Prod.fst)
  | _ => Except.error (CircleError.typeError "no keys method")

/-- The HTTP verbs issued by the client. -/
inductive Verb where
  | GET : Verb
  | POST : Verb
  | DELETE : Verb

/-- A request as handed to the `requests` library: verb, full URL, the
headers passed along, and the `data` body for POST. -/
structure HttpRequest where
  verb : Verb
  url : String
  headers : List (String × String)
  data : Option String

/-- A response from the transport: `status_code` and the JSON body that
`r.json()` would decode. -/
structure HttpResponse where
  statusCode : Nat
  body : Json

/-- The client object: `CircleAPI.__init__` stores the token; the base
URL is the constant `https://circleci.com/api/v1`. -/
structure CircleAPI where
  token : String

/-- `self._base_url`, set in `CircleAPI.__init__`. -/
def CircleAPI.baseUrl : String := "https://circleci.com/api/v1"

/-- `CircleAPI._build_url(endpoint, params)`: the query dict is
`{'circle-token': self._token}` updated with `params`; `urlparse` splits
the base URL into scheme `https`, netloc `circleci.com` and path
`/api/v1`; the new path is `'/'.join((parsed_url.path, endpoint))` and
`urlunparse` (with empty params and fragment) reassembles
`scheme://netloc` ++ path ++ `?` ++ `urlencode(new_params)` (the query is
never empty: it always holds the `circle-token` pair). -/
def CircleAPI.buildUrl (api : CircleAPI) (endpoint : String) (params : List (String × String)) : String :=
  "https://circleci.com" ++ "/api/v1" ++ "/" ++ endpoint ++ "?" ++
    urlencode (dictUpdate [("circle-token", api.token)] params)

/-- The default header dict built by `_get`, `_post` and `_delete`. -/
def defaultHeaders : List (String × String) :=
  [("Content-Type", "application/json"), ("Accept", "application/json")]

/-- The request `_get` hands to `requests.get`: the built URL and the
default headers updated with the caller's headers. -/
def CircleAPI.getRequest (api : CircleAPI) (endpoint : String) (params headers : List (String × String)) : HttpRequest :=
  { verb := Verb.GET, url := api.buildUrl endpoint params,
    headers := dictUpdate defaultHeaders headers, data := none }

/-- `CircleAPI._get(endpoint, params, headers)` against a transport:
issues the single GET request; a `status_code >= 400` raises
`Exception("Error sending GET request to " + url)`, otherwise the decoded
body is returned.  The second component records the requests issued. -/
def CircleAPI.httpGet (api : CircleAPI) (t : HttpRequest → HttpResponse) (endpoint : String) (params headers : List (String × String)) : Except CircleError Json × List HttpRequest :=
  let req := api.getRequest endpoint params headers
  let r := t req
  if 400 ≤ r.statusCode then
    (Except.error (CircleError.exn ("Error sending GET request to " ++ api.buildUrl endpoint params)), [req])
  else
    (Except.ok r.body, [req])

/-- The request `_post` hands to `requests.post`: the URL is built with no
extra params (`self._build_url(endpoint)`), headers are the default dict
updated with the caller's headers, and `data` is the request body. -/
def CircleAPI.postRequest (api : CircleAPI) (endpoint : String) (data : Option String) (headers : List (String × String)) : HttpRequest :=
  { verb := Verb.POST, url := api.buildUrl endpoint [],
    headers := dictUpdate defaultHeaders headers, data := data }

/-- `CircleAPI._post(endpoint, data, headers)` against a transport. -/
def CircleAPI.httpPost (api : CircleAPI) (t : HttpRequest → HttpResponse) (endpoint : String) (data : Option String) (headers : List (String × String)) : Except CircleError Json × List HttpRequest :=
  let req := api.postRequest endpoint data headers
  let r := t req
  if 400 ≤ r.statusCode then
    (Except.error (CircleError.exn ("Error sending POST request to " ++ api.buildUrl endpoint [])), [req])
  else
    (Except.ok r.body, [req])

/-- The request `_delete` hands to `requests.delete`.  Note (line 100 of
the source): `requests.delete(url, headers=headers)` is passed the
caller's `headers` argument unchanged — the merged `new_headers` dict is
computed on lines 97-98 but never used. -/
def CircleAPI.deleteRequest (api : CircleAPI) (endpoint : String) (headers : List (String × String)) : HttpRequest :=
  { verb := Verb.DELETE, url := api.buildUrl endpoint [],
    headers := headers, data := none }

/-- `CircleAPI._delete(endpoint, headers)` against a transport. -/
def CircleAPI.httpDelete (api : CircleAPI) (t : HttpRequest → HttpResponse) (endpoint : String) (headers : List (String × String)) : Except CircleError Json × List HttpRequest :=
  let req := api.deleteRequest endpoint headers
  let r := t req
  if 400 ≤ r.statusCode then
    (Except.error (CircleError.exn ("Error sending DELETE request to " ++ api.buildUrl endpoint [])), [req])
  else
    (Except.ok r.body, [req])

/-- The reshaping done by `CircleAPI.me` on the decoded response
`r_json`: verbose returns `json.dumps(r_json, indent=2)` (a string);
otherwise an `OrderedDict` of curated fields is built, each dict access
possibly raising. -/
def meShape (verbose : Bool) (r : Json) : Except CircleError Json :=
  if verbose then Except.ok (Json.str (jsonDumps r))
  else
    Except.bind (dictGet r "name") fun name =>
    Except.bind (dictGet r "all_emails") fun allEmails =>
    Except.bind (asArr allEmails) fun emailList =>
    Except.bind (joinPy ", " emailList) fun emails =>
    Except.bind (dictGet r "sign_in_count") fun sic =>
    Except.bind (dictGet r "heroku_api_key") fun hak =>
    Except.bind (dictGet r "containers") fun containers =>
    Except.bind (dictGet r "parallelism") fun par =>
    Except.bind (dictGet r "login") fun login =>
    Except.bind (dictGet r "admin") fun admin =>
    Except.bind (dictGet r "projects") fun projs =>
    Except.bind (objKeys projs) fun keys =>
    Except.ok (Json.obj
      [("Name", name), ("Emails", Json.str emails), ("Sign-In Count", sic),
       ("Heroku API Key", hak), ("Containers", containers),
       ("Parallelism", par), ("Username", login), ("Admin", admin),
       ("Projects", Json.str (String.intercalate ", " keys))])

/-- Error-propagating map over a list, as a Python list comprehension or
`for` loop over computations that may raise: stops at the first raise. -/
def mapExcept (f : α → Except ε β) : List α → Except ε (List β)
  | [] => Except.ok []
  | x :: xs => Except.bind (f x) fun y => Except.map (fun ys => y :: ys) (mapExcept f xs)

/-- The reshaping done by `CircleAPI.projects` on the decoded response:
verbose returns `json.dumps(r_json, indent=2)`; otherwise the list
comprehension `['{u}/{r}'.format(...) for j in r_json]` over the decoded
list. -/
def projectsShape (verbose : Bool) (r : Json) : Except CircleError Json :=
  if verbose then Except.ok (Json.str (jsonDumps r))
  else
    match r with
    | Json.arr xs =>
      Except.map Json.arr (mapExcept (fun j =>
        Except.bind (dictGet j "username") fun u =>
        Except.map (fun rn => Json.str (pyStr u ++ "/" ++ pyStr rn)) (dictGet j "reponame")) xs)
    | _ => Except.error (CircleError.typeError "not a list")

/-- The per-record summary built in the loop body of
`CircleAPI.project_builds` (lines 165-176).  `fmtQ` abstracts
`dp.parse(s).astimezone(tz.tzlocal()).strftime('...')`, whose output
depends on the host timezone and locale; the source applies it to the
`queued_at` string.  Dict accesses happen in source order; `branch` is
only read when `vcs_tag` is falsy. -/
def buildSummaryPB (fmtQ : String → String) (build : Json) : Except CircleError Json :=
  Except.bind (dictGet build "build_num") fun bn =>
  Except.bind (dictGet build "author_name") fun an =>
  Except.bind (dictGet build "author_email") fun ae =>
  Except.bind (dictGet build "vcs_tag") fun vt =>
  Except.bind
    (if truthy vt then Except.ok [("Tag    ", vt)]
     else Except.map (fun br => [("Branch ", if truthy br then br else Json.str "Unknown")])
            (dictGet build "branch")) fun tb =>
  Except.bind (dictGet build "queued_at") fun qa =>
  Except.bind (asString qa) fun qs =>
  Except.bind (dictGet build "why") fun why =>
  Except.bind (dictGet build "build_url") fun bu =>
  Except.bind (dictGet build "outcome") fun oc =>
  Except.ok (Json.obj
    ([("Build# ", bn),
      ("Author ", if truthy ae then Json.str (pyStr an ++ " <" ++ pyStr ae ++ ">") else ae)]
     ++ tb ++
     [("Queued ", Json.str (fmtQ qs)), ("Trigger", why), ("URL    ", bu), ("Result ", oc)]))

/-- The accumulating loop of `project_builds`: `resp = []`, then for each
build `resp.insert(0, o)` — each summary is pushed at the front. -/
def buildsLoopPB (fmtQ : String → String) (resp : List Json) : List Json → Except CircleError (List Json)
  | [] => Except.ok resp
  | b :: rest => Except.bind (buildSummaryPB fmtQ b) fun o => buildsLoopPB fmtQ (o :: resp) rest

/-- The reshaping done by `CircleAPI.project_builds` on the decoded
response: verbose returns `json.dumps(r_json, indent=2)`; otherwise the
front-inserting loop over the decoded list. -/
def projectBuildsShape (fmtQ : String → String) (verbose : Bool) (r : Json) : Except CircleError Json :=
  if verbose then Except.ok (Json.str (jsonDumps r))
  else
    match r with
    | Json.arr builds => Except.map Json.arr (buildsLoopPB fmtQ [] builds)
    | _ => Except.error (CircleError.typeError "not a list")

/-- The per-record summary built in the loop body of
`CircleAPI.recent_builds` (lines 196-207) — the source duplicates the
`project_builds` loop body verbatim. -/
def buildSummaryRB (fmtQ : String → String) (build : Json) : Except CircleError Json :=
  Except.bind (dictGet build "build_num") fun bn =>
  Except.bind (dictGet build "author_name") fun an =>
  Except.bind (dictGet build "author_email") fun ae =>
  Except.bind (dictGet build "vcs_tag") fun vt =>
  Except.bind
    (if truthy vt then Except.ok [("Tag    ", vt)]
     else Except.map (fun br => [("Branch ", if truthy br then br else Json.str "Unknown")])
            (dictGet build "branch")) fun tb =>
  Except.bind (dictGet build "queued_at") fun qa =>
  Except.bind (asString qa) fun qs =>
  Except.bind (dictGet build "why") fun why =>
  Except.bind (dictGet build "build_url") fun bu =>
  Except.bind (dictGet build "outcome") fun oc =>
  Except.ok (Json.obj
    ([("Build# ", bn),
      ("Author ", if truthy ae then Json.str (pyStr an ++ " <" ++ pyStr ae ++ ">") else ae)]
     ++ tb ++
     [("Queued ", Json.str (fmtQ qs)), ("Trigger", why), ("URL    ", bu), ("Result ", oc)]))

/-- The accumulating loop of `recent_builds` (duplicated source). -/
def buildsLoopRB (fmtQ : String → String) (resp : List Json) : List Json → Except CircleError (List Json)
  | [] => Except.ok resp
  | b :: rest => Except.bind (buildSummaryRB fmtQ b) fun o => buildsLoopRB fmtQ (o :: resp) rest

/-- The reshaping done by `CircleAPI.recent_builds` on the decoded
response (duplicated source). -/
def recentBuildsShape (fmtQ : String → String) (verbose : Bool) (r : Json) : Except CircleError Json :=
  if verbose then Except.ok (Json.str (jsonDumps r))
  else
    match r with
    | Json.arr builds => Except.map Json.arr (buildsLoopRB fmtQ [] builds)
    | _ => Except.error (CircleError.typeError "not a list")

/-- `CircleAPI.me(verbose)`: GET `me`, then reshape. -/
def CircleAPI.me (api : CircleAPI) (t : HttpRequest → HttpResponse) (verbose : Bool) : Except CircleError Json × List HttpRequest :=
  let (r, calls) := api.httpGet t "me" [] []
  (Except.bind r (meShape verbose), calls)

/-- `CircleAPI.projects(verbose)`: GET `projects`, then reshape. -/
def CircleAPI.projects (api : CircleAPI) (t : HttpRequest → HttpResponse) (verbose : Bool) : Except CircleError Json × List HttpRequest :=
  let (r, calls) := api.httpGet t "projects" [] []
  (Except.bind r (projectsShape verbose), calls)

/-- `CircleAPI.project_builds(username, project, verbose)`:
GET `project/<username>/<project>`, then reshape. -/
def CircleAPI.project_builds (api : CircleAPI) (fmtQ : String → String) (t : HttpRequest → HttpResponse) (username project : String) (verbose : Bool) : Except CircleError Json × List HttpRequest :=
  let (r, calls) := api.httpGet t ("project/" ++ username ++ "/" ++ project) [] []
  (Except.bind r (projectBuildsShape fmtQ verbose), calls)

/-- `CircleAPI.recent_builds(verbose)`: GET `recent-builds`, then
reshape. -/
def CircleAPI.recent_builds (api : CircleAPI) (fmtQ : String → String) (t : HttpRequest → HttpResponse) (verbose : Bool) : Except CircleError Json × List HttpRequest :=
  let (r, calls) := api.httpGet t "recent-builds" [] []
  (Except.bind r (recentBuildsShape fmtQ verbose), calls)

/-- `CircleAPI.build_details(username, project, build_num)`. -/
def CircleAPI.build_details (api : CircleAPI) (t : HttpRequest → HttpResponse) (username project : String) (build_num : Nat) : Except CircleError Json × List HttpRequest :=
  api.httpGet t ("project/" ++ username ++ "/" ++ project ++ "/" ++ toString build_num) [] []

/-- `CircleAPI.artifacts(username, project, build_num)`. -/
def CircleAPI.artifacts (api : CircleAPI) (t : HttpRequest → HttpResponse) (username project : String) (build_num : Nat) : Except CircleError Json × List HttpRequest :=
  api.httpGet t ("project/" ++ username ++ "/" ++ project ++ "/" ++ toString build_num ++ "/artifacts") [] []

/-- `CircleAPI.retry_build(username, project, build_num)`: POST. -/
def CircleAPI.retry_build (api : CircleAPI) (t : HttpRequest → HttpResponse) (username project : String) (build_num : Nat) : Except CircleError Json × List HttpRequest :=
  api.httpPost t ("project/" ++ username ++ "/" ++ project ++ "/" ++ toString build_num ++ "/retry") none []

/-- `CircleAPI.cancel_build(username, project, build_num)`: POST. -/
def CircleAPI.cancel_build (api : CircleAPI) (t : HttpRequest → HttpResponse) (username project : String) (build_num : Nat) : Except CircleError Json × List HttpRequest :=
  api.httpPost t ("project/" ++ username ++ "/" ++ project ++ "/" ++ toString build_num ++ "/cancel") none []

/-- `CircleAPI.list_checkout_keys(username, project)`. -/
def CircleAPI.list_checkout_keys (api : CircleAPI) (t : HttpRequest → HttpResponse) (username project : String) : Except CircleError Json × List HttpRequest :=
  api.httpGet t ("project/" ++ username ++ "/" ++ project ++ "/checkout-key") [] []

/-- `CircleAPI.checkout_key(username, project, fingerprint)`. -/
def CircleAPI.checkout_key (api : CircleAPI) (t : HttpRequest → HttpResponse) (username project fingerprint : String) : Except CircleError Json × List HttpRequest :=
  api.httpGet t ("project/" ++ username ++ "/" ++ project ++ "/checkout-key/" ++ fingerprint) [] []

/-- `CircleAPI.delete_checkout_key(username, project, fingerprint)`:
DELETE. -/
def CircleAPI.delete_checkout_key (api : CircleAPI) (t : HttpRequest → HttpResponse) (username project fingerprint : String) : Except CircleError Json × List HttpRequest :=
  api.httpDelete t ("project/" ++ username ++ "/" ++ project ++ "/checkout-key/" ++ fingerprint) []

/-- `CircleAPI.clear_cache(username, project)`: DELETE. -/
def CircleAPI.clear_cache (api : CircleAPI) (t : HttpRequest → HttpResponse) (username project : String) : Except CircleError Json × List HttpRequest :=
  api.httpDelete t ("project/" ++ username ++ "/" ++ project ++ "/build-cache") []

/-- The message of every `NotImplementedError` raised by the stubs. -/
def notImplMsg : String := "This method has not yet been implemented."

/-- `CircleAPI.ssh_users(username, project, build_num)`: stub — raises
`NotImplementedError` immediately, no request issued. -/
def CircleAPI.ssh_users (api : CircleAPI) (t : HttpRequest → HttpResponse) (username project : String) (build_num : Nat) : Except CircleError Json × List HttpRequest :=
  (Except.error (CircleError.notImplementedError notImplMsg), [])

/-- `CircleAPI.new_build(username, project, branch)`: stub. -/
def CircleAPI.new_build (api : CircleAPI) (t : HttpRequest → HttpResponse) (username project branch : String) : Except CircleError Json × List HttpRequest :=
  (Except.error (CircleError.notImplementedError notImplMsg), [])

/-- `CircleAPI.create_ssh(username, project)`: stub. -/
def CircleAPI.create_ssh (api : CircleAPI) (t : HttpRequest → HttpResponse) (username project : String) : Except CircleError Json × List HttpRequest :=
  (Except.error (CircleError.notImplementedError notImplMsg), [])

/-- `CircleAPI.create_checkout_key(username, project)`: stub. -/
def CircleAPI.create_checkout_key (api : CircleAPI) (t : HttpRequest → HttpResponse) (username project : String) : Except CircleError Json × List HttpRequest :=
  (Except.error (CircleError.notImplementedError notImplMsg), [])

/-- `CircleAPI.add_circle_key()`: stub. -/
def CircleAPI.add_circle_key (api : CircleAPI) (t : HttpRequest → HttpResponse) : Except CircleError Json × List HttpRequest :=
  (Except.error (CircleError.notImplementedError notImplMsg), [])

/-- `CircleAPI.add_heroku_key()`: stub (a sixth unimplemented method,
beyond the five the public contract lists). -/
def CircleAPI.add_heroku_key (api : CircleAPI) (t : HttpRequest → HttpResponse) : Except CircleError Json × List HttpRequest :=
  (Except.error (CircleError.notImplementedError notImplMsg), [])

/-- Field lookup on a curated record (an observer on `Json.obj` values). -/
def lookupField (j : Json) (k : String) : Option Json :=
  match j with
  | Json.obj fs => alookup k fs
  | _ => none

/-- A transport double answering every request with status 404. -/
def t404 : HttpRequest → HttpResponse := fun _ => { statusCode := 404, body := Json.null }

/-- A transport double answering every request with status 500. -/
def t500 : HttpRequest → HttpResponse := fun _ => { statusCode := 500, body := Json.null }

/-- A transport double answering every request with status 200 and a null
body. -/
def t200 : HttpRequest → HttpResponse := fun _ => { statusCode := 200, body := Json.null }

/-- A sample client configured with token `tok`. -/
def api0 : CircleAPI := { token := "tok" }

@[simp] theorem exceptBind_ok (a : α) (f : α → Except ε β) :
    Except.bind (Except.ok a) f = f a := rfl

@[simp] theorem exceptBind_error (e : ε) (f : α → Except ε β) :
    Except.bind (Except.error e : Except ε α) f = Except.error e := rfl

@[simp] theorem exceptMap_ok (f : α → β) (a : α) :
    Except.map f (Except.ok a : Except ε α) = Except.ok (f a) := rfl

@[simp] theorem exceptMap_error (f : α → β) (e : ε) :
    Except.map f (Except.error e : Except ε α) = Except.error e := rfl

theorem alookup_dictSet_self (d : List (String × β)) (k : String) (v : β) :
    alookup k (dictSet d k v) = some v := by
  induction d with
  | nil => simp [dictSet, alookup]
  | cons kv rest ih =>
    obtain ⟨k', v'⟩ := kv
    by_cases h : k' = k
    · subst h; simp [dictSet, alookup]
    · simp [dictSet, alookup, h, ih]

theorem alookup_dictSet_ne (d : List (String × β)) (k : String) (v : β) (k' : String)
    (h : k ≠ k') : alookup k' (dictSet d k v) = alookup k' d := by
  induction d with
  | nil => simp [dictSet, alookup, h]
  | cons kv rest ih =>
    obtain ⟨k1, v1⟩ := kv
    by_cases h1 : k1 = k
    · subst h1; simp [dictSet, alookup, h]
    · simp [dictSet, alookup, h1, ih]

theorem alookup_eq_none_of_not_mem (ps : List (String × β)) (k : String)
    (h : k ∉ ps.map Prod.fst) : alookup k ps = none := by
  induction ps with
  | nil => rfl
  | cons kv rest ih =>
    obtain ⟨k1, v1⟩ := kv
    rw [List.map_cons, List.mem_cons] at h
    push_neg at h
    rw [alookup, if_neg (fun heq => h.1 heq.symm), ih h.2]

theorem alookup_dictUpdate_of_none (ps : List (String × β)) (k : String) :
    ∀ d, alookup k ps = none → alookup k (dictUpdate d ps) = alookup k d := by
  induction ps with
  | nil => intro d _; rfl
  | cons kv rest ih =>
    obtain ⟨k1, v1⟩ := kv
    intro d h
    rw [alookup] at h
    by_cases h1 : k1 = k
    · rw [if_pos h1] at h; exact absurd h (by simp)
    · rw [if_neg h1] at h
      rw [dictUpdate, ih _ h, alookup_dictSet_ne _ _ _ _ h1]

theorem alookup_dictUpdate_of_some (ps : List (String × β)) (k : String) (v : β) :
    ∀ d, (ps.map Prod.fst).Nodup → alookup k ps = some v →
      alookup k (dictUpdate d ps) = some v := by
  induction ps with
  | nil => intro d _ h; exact absurd h (by simp [alookup])
  | cons kv rest ih =>
    obtain ⟨k1, v1⟩ := kv
    intro d hnd h
    rw [List.map_cons, List.nodup_cons] at hnd
    rw [alookup] at h
    by_cases h1 : k1 = k
    · rw [if_pos h1] at h
      subst h1
      have hnone : alookup k1 rest = none := alookup_eq_none_of_not_mem _ _ hnd.1
      rw [dictUpdate, alookup_dictUpdate_of_none _ _ _ hnone, alookup_dictSet_self]
      exact h
    · rw [if_neg h1] at h
      rw [dictUpdate]
      exact ih _ hnd.2 h

/-- Claim C2: `_build_url` joins the base path and the endpoint with `/`
and appends the query encoding the dict `{'circle-token': token}` updated
with the caller's params; the configured token is the value of
`circle-token` whenever the caller's params do not bind that key, and a
caller-supplied binding for `circle-token` takes precedence. -/
theorem buildUrl_query_spec (api : CircleAPI) (endpoint : String)
    (params : List (String × String)) :
    api.buildUrl endpoint params =
      "https://circleci.com" ++ "/api/v1" ++ "/" ++ endpoint ++ "?" ++
        urlencode (dictUpdate [("circle-token", api.token)] params) ∧
    (alookup "circle-token" params = none →
      alookup "circle-token" (dictUpdate [("circle-token", api.token)] params) =
        some api.token) ∧
    (∀ v, (params.map Prod.fst).Nodup → alookup "circle-token" params = some v →
      alookup "circle-token" (dictUpdate [("circle-token", api.token)] params) = some v) := by
  refine ⟨rfl, ?_, ?_⟩
  · intro h
    rw [alookup_dictUpdate_of_none _ _ _ h]
    simp [alookup]
  · intro v hnd h
    exact alookup_dictUpdate_of_some _ _ _ _ hnd h

/-- Witness for C2 at concrete inputs: with token `tok`, params without a
`circle-token` key keep the configured token, and a caller-supplied
`circle-token` overrides it. -/
theorem buildUrl_query_spec_witness :
    alookup "circle-token" (dictUpdate [("circle-token", "tok")] [("branch", "main")]) =
      some "tok" ∧
    alookup "circle-token"
        (dictUpdate [("circle-token", "tok")] [("circle-token", "override")]) =
      some "override" :=
  ⟨(buildUrl_query_spec { token := "tok" } "me" [("branch", "main")]).2.1 (by decide),
   (buildUrl_query_spec { token := "tok" } "me" [("circle-token", "override")]).2.2
     "override" (by decide) (by decide)⟩

/-- Claim C3: each of the five explicitly unimplemented operations
(`ssh_users`, `new_build`, `create_ssh`, `create_checkout_key`,
`add_circle_key`) deterministically raises `NotImplementedError` and
records zero requests on the transport double, for every transport and
every argument. -/
theorem stubs_raise_not_implemented (api : CircleAPI) (t : HttpRequest → HttpResponse)
    (username project branch : String) (build_num : Nat) :
    api.ssh_users t username project build_num =
      (Except.error (CircleError.notImplementedError notImplMsg), []) ∧
    api.new_build t username project branch =
      (Except.error (CircleError.notImplementedError notImplMsg), []) ∧
    api.create_ssh t username project =
      (Except.error (CircleError.notImplementedError notImplMsg), []) ∧
    api.create_checkout_key t username project =
      (Except.error (CircleError.notImplementedError notImplMsg), []) ∧
    api.add_circle_key t =
      (Except.error (CircleError.notImplementedError notImplMsg), []) :=
  ⟨rfl, rfl, rfl, rfl, rfl⟩

/-- Claim C5, amended: in verbose mode `me`, `projects`,
`project_builds` and `recent_builds` all return the raw decoded response
serialized by `json.dumps(r_json, indent=2)` — a string rendering of the
full raw JSON, with no field selected or transformed — rather than a
curated display record. -/
theorem verbose_returns_dump (fmtQ : String → String) (r : Json) :
    meShape true r = Except.ok (Json.str (jsonDumps r)) ∧
    projectsShape true r = Except.ok (Json.str (jsonDumps r)) ∧
    projectBuildsShape fmtQ true r = Except.ok (Json.str (jsonDumps r)) ∧
    recentBuildsShape fmtQ true r = Except.ok (Json.str (jsonDumps r)) :=
  ⟨rfl, rfl, rfl, rfl⟩

/-- Counterexample to C5 as stated: on the decoded response `{}` (the
empty object), verbose `me` returns the string rendering produced by
`json.dumps`, not the decoded JSON value unchanged. -/
theorem verbose_not_raw_counterexample :
    meShape true (Json.obj []) = Except.ok (Json.str "\x7b\x7d") ∧
    meShape true (Json.obj []) ≠ Except.ok (Json.obj []) := by
  constructor
  · show Except.ok (Json.str (jsonDumps (Json.obj []))) = _
    rw [jsonDumps, dumpVal]
  · intro h
    rw [meShape] at h
    simp at h

/-- Claim C1, amended: whenever the transport answers with status ≥ 400,
each verb raises a plain `Exception` whose message carries the offending
request URL (the status code is not part of the error), and no parsed
body is returned. -/
theorem http_error_propagates (api : CircleAPI) (t : HttpRequest → HttpResponse)
    (endpoint : String) (params headers : List (String × String)) (data : Option String) :
    (400 ≤ (t (api.getRequest endpoint params headers)).statusCode →
      api.httpGet t endpoint params headers =
        (Except.error (CircleError.exn
           ("Error sending GET request to " ++ api.buildUrl endpoint params)),
         [api.getRequest endpoint params headers])) ∧
    (400 ≤ (t (api.postRequest endpoint data headers)).statusCode →
      api.httpPost t endpoint data headers =
        (Except.error (CircleError.exn
           ("Error sending POST request to " ++ api.buildUrl endpoint [])),
         [api.postRequest endpoint data headers])) ∧
    (400 ≤ (t (api.deleteRequest endpoint headers)).statusCode →
      api.httpDelete t endpoint headers =
        (Except.error (CircleError.exn
           ("Error sending DELETE request to " ++ api.buildUrl endpoint [])),
         [api.deleteRequest endpoint headers])) := by
  refine ⟨?_, ?_, ?_⟩ <;> intro h
  · rw [CircleAPI.httpGet]; simp [h]
  · rw [CircleAPI.httpPost]; simp [h]
  · rw [CircleAPI.httpDelete]; simp [h]

/-- Witness for C1 at a concrete input: a 404 transport double makes all
three verbs return the URL-bearing error. -/
theorem http_error_propagates_witness :
    api0.httpGet t404 "me" [] [] =
      (Except.error (CircleError.exn
         ("Error sending GET request to " ++ api0.buildUrl "me" [])),
       [api0.getRequest "me" [] []]) ∧
    api0.httpPost t404 "me" none [] =
      (Except.error (CircleError.exn
         ("Error sending POST request to " ++ api0.buildUrl "me" [])),
       [api0.postRequest "me" none []]) ∧
    api0.httpDelete t404 "me" [] =
      (Except.error (CircleError.exn
         ("Error sending DELETE request to " ++ api0.buildUrl "me" [])),
       [api0.deleteRequest "me" []]) :=
  ⟨(http_error_propagates api0 t404 "me" [] [] none).1 (by decide),
   (http_error_propagates api0 t404 "me" [] [] none).2.1 (by decide),
   (http_error_propagates api0 t404 "me" [] [] none).2.2 (by decide)⟩

/-- Counterexample to C1 as stated: responses with status 404 and with
status 500 to the same GET produce the very same exception value, whose
message holds only the URL — so the raised error cannot carry the
response's status code. -/
theorem http_error_counterexample :
    (api0.httpGet t404 "me" [] []).1 = (api0.httpGet t500 "me" [] []).1 ∧
    (api0.httpGet t404 "me" [] []).1 =
      Except.error (CircleError.exn
        "Error sending GET request to https://circleci.com/api/v1/me?circle-token=tok") :=
  ⟨rfl, rfl⟩

/-- Claim C6: GET and POST send the default headers updated with the
caller's headers, but DELETE sends the caller's headers unmerged — line
100 of the source passes `headers`, not the computed `new_headers` — so
with empty caller headers the DELETE request carries no `Content-Type`
header even though the merged dict would. -/
theorem delete_headers_unmerged (api : CircleAPI) (t : HttpRequest → HttpResponse)
    (endpoint : String) (params headers : List (String × String)) (data : Option String) :
    (api.httpGet t endpoint params headers).2.map HttpRequest.headers =
      [dictUpdate defaultHeaders headers] ∧
    (api.httpPost t endpoint data headers).2.map HttpRequest.headers =
      [dictUpdate defaultHeaders headers] ∧
    (api.httpDelete t endpoint headers).2.map HttpRequest.headers = [headers] ∧
    ((api0.httpDelete t200 "project/a/b/build-cache" []).2.map HttpRequest.headers =
       [[]] ∧
     alookup "Content-Type" ([] : List (String × String)) = none ∧
     alookup "Content-Type" (dictUpdate defaultHeaders ([] : List (String × String))) =
       some "application/json") := by
  refine ⟨?_, ?_, ?_, by decide, by decide, by decide⟩
  · rw [CircleAPI.httpGet]
    split <;> rfl
  · rw [CircleAPI.httpPost]
    split <;> rfl
  · rw [CircleAPI.httpDelete]
    split <;> rfl

theorem buildsLoopPB_eq (fmtQ : String → String) (bs : List Json) :
    ∀ acc, buildsLoopPB fmtQ acc bs =
      Except.map (fun ys => ys.reverse ++ acc) (mapExcept (buildSummaryPB fmtQ) bs) := by
  induction bs with
  | nil => intro acc; rfl
  | cons b rest ih =>
    intro acc
    simp only [buildsLoopPB, mapExcept]
    cases hb : buildSummaryPB fmtQ b with
    | error e => simp
    | ok o =>
      simp only [exceptBind_ok]
      rw [ih (o :: acc)]
      cases hr : mapExcept (buildSummaryPB fmtQ) rest with
      | error e => simp
      | ok ys => simp

theorem buildsLoopRB_eq (fmtQ : String → String) (bs : List Json) :
    ∀ acc, buildsLoopRB fmtQ acc bs =
      Except.map (fun ys => ys.reverse ++ acc) (mapExcept (buildSummaryRB fmtQ) bs) := by
  induction bs with
  | nil => intro acc; rfl
  | cons b rest ih =>
    intro acc
    simp only [buildsLoopRB, mapExcept]
    cases hb : buildSummaryRB fmtQ b with
    | error e => simp
    | ok o =>
      simp only [exceptBind_ok]
      rw [ih (o :: acc)]
      cases hr : mapExcept (buildSummaryRB fmtQ) rest with
      | error e => simp
      | ok ys => simp

/-- Claim C4: the non-verbose reshaping of `project_builds` (and of
`recent_builds`) equals the reverse of the per-build summary map over the
raw list — the loop inserts each summary at the front. -/
theorem project_builds_reversed (fmtQ : String → String) (builds : List Json) :
    projectBuildsShape fmtQ false (Json.arr builds) =
      Except.map (fun ys => Json.arr ys.reverse) (mapExcept (buildSummaryPB fmtQ) builds) ∧
    recentBuildsShape fmtQ false (Json.arr builds) =
      Except.map (fun ys => Json.arr ys.reverse) (mapExcept (buildSummaryRB fmtQ) builds) := by
  constructor
  · show Except.map Json.arr (buildsLoopPB fmtQ [] builds) = _
    rw [buildsLoopPB_eq]
    cases hr : mapExcept (buildSummaryPB fmtQ) builds <;> simp
  · show Except.map Json.arr (buildsLoopRB fmtQ [] builds) = _
    rw [buildsLoopRB_eq]
    cases hr : mapExcept (buildSummaryRB fmtQ) builds <;> simp

theorem buildSummaryRB_eq_PB (fmtQ : String → String) (b : Json) :
    buildSummaryRB fmtQ b = buildSummaryPB fmtQ b := rfl

theorem buildsLoopRB_eq_PB (fmtQ : String → String) (bs : List Json) :
    ∀ acc, buildsLoopRB fmtQ acc bs = buildsLoopPB fmtQ acc bs := by
  induction bs with
  | nil => intro acc; rfl
  | cons b rest ih =>
    intro acc
    simp only [buildsLoopRB, buildsLoopPB, buildSummaryRB_eq_PB]
    cases hb : buildSummaryPB fmtQ b <;> simp [ih]

/-- Claim C10: `project_builds` and `recent_builds` apply exactly the
same per-record reshaping — their non-verbose outputs coincide on every
decoded response; the two operations differ only in the endpoint
queried. -/
theorem project_recent_same_reshape (fmtQ : String → String) (r : Json) :
    projectBuildsShape fmtQ false r = recentBuildsShape fmtQ false r := by
  cases r <;> simp [projectBuildsShape, recentBuildsShape, buildsLoopRB_eq_PB]

theorem projectsMap_general (xs : List Json) (uvs : List (Json × Json))
    (h : List.Forall₂ (fun j uv =>
      dictGet j "username" = Except.ok uv.1 ∧ dictGet j "reponame" = Except.ok uv.2) xs uvs) :
    mapExcept (fun j =>
      Except.bind (dictGet j "username") fun u =>
      Except.map (fun rn => Json.str (pyStr u ++ "/" ++ pyStr rn)) (dictGet j "reponame")) xs =
    Except.ok (uvs.map fun uv => Json.str (pyStr uv.1 ++ "/" ++ pyStr uv.2)) := by
  induction h with
  | nil => rfl
  | cons hab htl ih =>
    obtain ⟨hu, hr⟩ := hab
    simp only [mapExcept, hu, hr, exceptBind_ok, exceptMap_ok, ih, List.map_cons]

/-- Claim C9: on every raw JSON list of project objects each carrying a
`username` and a `reponame` field — whatever other fields they carry and
whatever the values of those two fields — non-verbose `projects` returns
the list of `username/reponame` format strings in the same order; in
particular `[{"username": "a", "reponame": "b"}]` yields `["a/b"]`. -/
theorem projects_non_verbose (xs : List Json) (uvs : List (Json × Json))
    (h : List.Forall₂ (fun j uv =>
      dictGet j "username" = Except.ok uv.1 ∧ dictGet j "reponame" = Except.ok uv.2) xs uvs) :
    projectsShape false (Json.arr xs) =
      Except.ok (Json.arr (uvs.map fun uv => Json.str (pyStr uv.1 ++ "/" ++ pyStr uv.2))) ∧
    projectsShape false
        (Json.arr [Json.obj [("username", Json.str "a"), ("reponame", Json.str "b")]]) =
      Except.ok (Json.arr [Json.str "a/b"]) := by
  constructor
  · show Except.map Json.arr _ = _
    rw [projectsMap_general xs uvs h]
    rfl
  · rfl

/-- Witness for C9 at a concrete input: a project object carrying extra
fields besides `username` and `reponame` (and in a different field
order) still yields its `username/reponame` string. -/
theorem projects_non_verbose_witness :
    projectsShape false (Json.arr
      [Json.obj [("vcs_url", Json.str "https://github.com/a/b"),
                 ("reponame", Json.str "b"), ("username", Json.str "a"),
                 ("followed", Json.bool true)]]) =
      Except.ok (Json.arr [Json.str "a/b"]) := by
  have h := (projects_non_verbose
    [Json.obj [("vcs_url", Json.str "https://github.com/a/b"),
               ("reponame", Json.str "b"), ("username", Json.str "a"),
               ("followed", Json.bool true)]]
    [(Json.str "a", Json.str "b")]
    (List.Forall₂.cons ⟨rfl, rfl⟩ List.Forall₂.nil)).1
  exact h

/-- Claim C7: in a build summary, a truthy `vcs_tag` yields a `Tag` field
holding the tag and no `Branch` field; a falsy `vcs_tag` (null or empty —
a missing key raises instead) yields a `Branch` field equal to the
record's branch, defaulting to `"Unknown"` when the branch is falsy, and
no `Tag` field. -/
theorem summary_tag_or_branch (fmtQ : String → String) (build o vt : Json)
    (h : buildSummaryPB fmtQ build = Except.ok o)
    (hvt : dictGet build "vcs_tag" = Except.ok vt) :
    (truthy vt = true →
      lookupField o "Tag    " = some vt ∧ lookupField o "Branch " = none) ∧
    (truthy vt = false → ∀ br, dictGet build "branch" = Except.ok br →
      lookupField o "Branch " = some (if truthy br then br else Json.str "Unknown") ∧
      lookupField o "Tag    " = none) := by
  simp only [buildSummaryPB] at h
  cases h1 : dictGet build "build_num" with
  | error e => rw [h1] at h; simp at h
  | ok bn =>
  rw [h1, exceptBind_ok] at h
  cases h2 : dictGet build "author_name" with
  | error e => rw [h2] at h; simp at h
  | ok an =>
  rw [h2, exceptBind_ok] at h
  cases h3 : dictGet build "author_email" with
  | error e => rw [h3] at h; simp at h
  | ok ae =>
  rw [h3, exceptBind_ok] at h
  rw [hvt, exceptBind_ok] at h
  constructor
  · intro ht
    rw [ht, if_pos rfl, exceptBind_ok] at h
    cases h5 : dictGet build "queued_at" with
    | error e => rw [h5] at h; simp at h
    | ok qa =>
    rw [h5, exceptBind_ok] at h
    cases h6 : asString qa with
    | error e => rw [h6] at h; simp at h
    | ok qs =>
    rw [h6, exceptBind_ok] at h
    cases h7 : dictGet build "why" with
    | error e => rw [h7] at h; simp at h
    | ok why =>
    rw [h7, exceptBind_ok] at h
    cases h8 : dictGet build "build_url" with
    | error e => rw [h8] at h; simp at h
    | ok bu =>
    rw [h8, exceptBind_ok] at h
    cases h9 : dictGet build "outcome" with
    | error e => rw [h9] at h; simp at h
    | ok oc =>
    rw [h9, exceptBind_ok, Except.ok.injEq] at h
    subst h
    simp [lookupField, alookup]
  · intro ht br hbr
    rw [ht, if_neg (by simp), hbr, exceptMap_ok, exceptBind_ok] at h
    cases h5 : dictGet build "queued_at" with
    | error e => rw [h5] at h; simp at h
    | ok qa =>
    rw [h5, exceptBind_ok] at h
    cases h6 : asString qa with
    | error e => rw [h6] at h; simp at h
    | ok qs =>
    rw [h6, exceptBind_ok] at h
    cases h7 : dictGet build "why" with
    | error e => rw [h7] at h; simp at h
    | ok why =>
    rw [h7, exceptBind_ok] at h
    cases h8 : dictGet build "build_url" with
    | error e => rw [h8] at h; simp at h
    | ok bu =>
    rw [h8, exceptBind_ok] at h
    cases h9 : dictGet build "outcome" with
    | error e => rw [h9] at h; simp at h
    | ok oc =>
    rw [h9, exceptBind_ok, Except.ok.injEq] at h
    subst h
    simp [lookupField, alookup]

/-- Claim C8: in a build summary with string-valued `author_name` and
`author_email`, the `Author` field is `"name <email>"` when the email is
non-empty and the empty string when the email is empty. -/
theorem summary_author_field (fmtQ : String → String) (build o : Json)
    (name email : String)
    (h : buildSummaryPB fmtQ build = Except.ok o)
    (hn : dictGet build "author_name" = Except.ok (Json.str name))
    (he : dictGet build "author_email" = Except.ok (Json.str email)) :
    lookupField o "Author " =
      some (if email = "" then Json.str ""
            else Json.str (name ++ " <" ++ email ++ ">")) := by
  simp only [buildSummaryPB] at h
  cases h1 : dictGet build "build_num" with
  | error e => rw [h1] at h; simp at h
  | ok bn =>
  rw [h1, exceptBind_ok, hn, exceptBind_ok, he, exceptBind_ok] at h
  cases h4 : dictGet build "vcs_tag" with
  | error e => rw [h4] at h; simp at h
  | ok vt =>
  rw [h4, exceptBind_ok] at h
  have tail : ∀ tb : List (String × Json),
      Except.bind (dictGet build "queued_at") (fun qa =>
      Except.bind (asString qa) fun qs =>
      Except.bind (dictGet build "why") fun why =>
      Except.bind (dictGet build "build_url") fun bu =>
      Except.bind (dictGet build "outcome") fun oc =>
      Except.ok (Json.obj
        ([("Build# ", bn),
          ("Author ", if truthy (Json.str email) = true then
             Json.str (pyStr (Json.str name) ++ " <" ++ pyStr (Json.str email) ++ ">")
           else Json.str email)]
         ++ tb ++
         [("Queued ", Json.str (fmtQ qs)), ("Trigger", why), ("URL    ", bu),
          ("Result ", oc)]))) = Except.ok o →
      lookupField o "Author " =
        some (if email = "" then Json.str ""
              else Json.str (name ++ " <" ++ email ++ ">")) := by
    intro tb htl
    cases h5 : dictGet build "queued_at" with
    | error e => rw [h5] at htl; simp at htl
    | ok qa =>
    rw [h5, exceptBind_ok] at htl
    cases h6 : asString qa with
    | error e => rw [h6] at htl; simp at htl
    | ok qs =>
    rw [h6, exceptBind_ok] at htl
    cases h7 : dictGet build "why" with
    | error e => rw [h7] at htl; simp at htl
    | ok why =>
    rw [h7, exceptBind_ok] at htl
    cases h8 : dictGet build "build_url" with
    | error e => rw [h8] at htl; simp at htl
    | ok bu =>
    rw [h8, exceptBind_ok] at htl
    cases h9 : dictGet build "outcome" with
    | error e => rw [h9] at htl; simp at htl
    | ok oc =>
    rw [h9, exceptBind_ok, Except.ok.injEq] at htl
    subst htl
    by_cases hm : email = "" <;> simp [lookupField, alookup, pyStr, truthy, hm]
  cases hif : truthy vt with
  | true =>
    rw [hif, if_pos rfl, exceptBind_ok] at h
    exact tail [("Tag    ", vt)] h
  | false =>
    rw [hif, if_neg (by simp)] at h
    cases hbr : dictGet build "branch" with
    | error e => rw [hbr] at h; simp at h
    | ok br =>
    rw [hbr, exceptMap_ok, exceptBind_ok] at h
    exact tail [("Branch ", if truthy br then br else Json.str "Unknown")] h

/-- A sample raw build record carrying a tag. -/
def tagBuild : Json := Json.obj
  [("build_num", Json.num 7), ("author_name", Json.str "Ann"),
   ("author_email", Json.str "ann@x.io"), ("vcs_tag", Json.str "v1.0"),
   ("branch", Json.null), ("queued_at", Json.str "2016-01-01T00:00:00Z"),
   ("why", Json.str "github"),
   ("build_url", Json.str "https://circleci.com/gh/a/b/7"),
   ("outcome", Json.str "success")]

/-- The summary of `tagBuild` under the identity timestamp formatter. -/
def tagSummary : Json := Json.obj
  [("Build# ", Json.num 7), ("Author ", Json.str "Ann <ann@x.io>"),
   ("Tag    ", Json.str "v1.0"),
   ("Queued ", Json.str "2016-01-01T00:00:00Z"), ("Trigger", Json.str "github"),
   ("URL    ", Json.str "https://circleci.com/gh/a/b/7"),
   ("Result ", Json.str "success")]

/-- A sample raw build record with a null tag, a branch, and an empty
author email. -/
def noEmailBuild : Json := Json.obj
  [("build_num", Json.num 3), ("author_name", Json.str "Bob"),
   ("author_email", Json.str ""), ("vcs_tag", Json.null),
   ("branch", Json.str "main"), ("queued_at", Json.str "2016-02-02T00:00:00Z"),
   ("why", Json.str "github"),
   ("build_url", Json.str "https://circleci.com/gh/a/b/3"),
   ("outcome", Json.str "failed")]

/-- The summary of `noEmailBuild` under the identity timestamp
formatter. -/
def noEmailSummary : Json := Json.obj
  [("Build# ", Json.num 3), ("Author ", Json.str ""),
   ("Branch ", Json.str "main"),
   ("Queued ", Json.str "2016-02-02T00:00:00Z"), ("Trigger", Json.str "github"),
   ("URL    ", Json.str "https://circleci.com/gh/a/b/3"),
   ("Result ", Json.str "failed")]

/-- Witness for C7 at concrete inputs: the tagged sample build summary
carries the `Tag` field and no `Branch` field; the untagged sample
carries `Branch` and no `Tag`. -/
theorem summary_tag_or_branch_witness :
    (lookupField tagSummary "Tag    " = some (Json.str "v1.0") ∧
     lookupField tagSummary "Branch " = none) ∧
    (lookupField noEmailSummary "Branch " = some (Json.str "main") ∧
     lookupField noEmailSummary "Tag    " = none) := by
  constructor
  · exact (summary_tag_or_branch (fun s => s) tagBuild tagSummary (Json.str "v1.0")
      rfl rfl).1 rfl
  · have h := (summary_tag_or_branch (fun s => s) noEmailBuild noEmailSummary Json.null
      rfl rfl).2 rfl (Json.str "main") rfl
    simpa using h

/-- Witness for C8 at concrete inputs: a non-empty email gives
`"name <email>"`, an empty email gives the empty string. -/
theorem summary_author_field_witness :
    lookupField tagSummary "Author " = some (Json.str "Ann <ann@x.io>") ∧
    lookupField noEmailSummary "Author " = some (Json.str "") := by
  constructor
  · have h := summary_author_field (fun s => s) tagBuild tagSummary "Ann" "ann@x.io"
      rfl rfl rfl
    simpa using h
  · have h := summary_author_field (fun s => s) noEmailBuild noEmailSummary "Bob" ""
      rfl rfl rfl
    simpa using h
